import Mathlib

/-!
Shallow embedding of `showoci_csv2adw.py` (showoci CSV to ADW loader).

The program reads CSV export files, bulk-inserts their rows into a staging
table in batches of 5000, and merges the staging table into a permanent
table keyed by a primary-key column.  The embedding below translates the
relevant Python functions into Lean definitions:

* Python strings are Lean `String`; Python slicing `s[0:3999]` is
  `String.mk (s.data.take 3999)` (both operate on characters).
* A `csv.DictReader` row is an association list `List (String × Option String)`;
  the `Option` models Python `None`, which `DictReader` uses as `restval`
  for rows shorter than the header.  Python `dict` membership and subscript
  are `dictGet` (later bindings override earlier ones, as in a Python dict
  built by successive assignment).
* Fallible Python code is `Except PyErr`; the exception hierarchy is the
  inductive `PyErr` (`SystemExit` is not a subclass of `Exception`, which
  matters for the `except Exception` clauses).
* Database interaction is recorded as a trace of `DbOp` values.  Failure of
  `cursor.executemany` is modelled by an oracle `failsAt : Nat → Bool`
  indexed by the number of `executemany` calls made so far; the other
  database calls are modelled as succeeding.
-/

/-- Python exception values, as far as this program distinguishes them.
`databaseError` is `oracledb.DatabaseError`, `typeError` is `TypeError`,
`exn` is a plain `Exception`; all three are subclasses of `Exception`.
`systemExit` is `SystemExit`, which is *not* an `Exception` subclass and
therefore escapes every `except Exception` clause in the program. -/
inductive PyErr where
  | databaseError (msg : String)
  | typeError (msg : String)
  | exn (msg : String)
  | systemExit
deriving DecidableEq

/-- Python `str(e)` on an exception: its message (empty for `SystemExit`). -/
def pyStr : PyErr → String
  | .databaseError m => m
  | .typeError m => m
  | .exn m => m
  | .systemExit => ""

/-- One database call made through the connection, recorded as a trace
element: a scalar catalog query with one bind, a `cursor.execute` of a
statement, a `cursor.executemany` with its batch, or `connection.commit()`. -/
inductive DbOp where
  | scalarQuery (sql : String) (binding : String)
  | execute (sql : String)
  | executemany (sql : String) (data : List (List String))
  | commit
deriving DecidableEq

/-- One field of a column-mapping descriptor: the dict
with keys col, csv, type, pk, fn of the source.
The Python key `type` is spelled `ty` because `type` is a Lean keyword. -/
structure TableItem where
  col : String
  csv : String
  ty : String
  pk : String
  fn : String
deriving DecidableEq

/-- A column-mapping descriptor: the dict with keys
`table_name`, `csv_file`, `items` built in `handle_compute` /
`handle_block_volume`. -/
structure TableDescriptor where
  table_name : String
  csv_file : String
  items : List TableItem
deriving DecidableEq

/-- A parsed CSV source file: the header line (`DictReader.fieldnames`) and
the data rows (each a list of cell strings, header excluded). -/
structure CsvFile where
  fieldnames : List String
  rows : List (List String)
deriving DecidableEq

/-- A `csv.DictReader` row as a Python dict: keys are the file header names
verbatim, values are the row cells, `none` standing for the Python `None`
that `DictReader` fills in (`restval`) when a non-blank row has fewer
fields than the header.  Cells beyond the header length go under the
`restkey` key `None` and are never consulted by the program, so they are
dropped here. -/
def dictReaderRow : List String → List String → List (String × Option String)
  | [], _ => []
  | h :: hs, [] => (h, none) :: dictReaderRow hs []
  | h :: hs, v :: vs => (h, some v) :: dictReaderRow hs vs

/-- Lookup in a Python dict built by successive assignment: a later binding
of the same key overrides an earlier one.  `none` means the key is absent
(`column in array` is false); `some v` means the key is present with value
`v`. -/
def dictGet : List (String × Option String) → String → Option (Option String)
  | [], _ => none
  | p :: rest, k =>
      match dictGet rest k with
      | some v => some v
      | none => if p.1 = k then some p.2 else none

/-- `get_column_value_from_array(column, array)` (source lines 51-55):
`if column in array: return array[column][0:3999] else: return ""`.
When the dict value is Python `None` (short `DictReader` row), the
subscript `None[0:3999]` raises a `TypeError`. -/
def get_column_value_from_array (column : String) (array : List (String × Option String)) :
    Except PyErr String :=
  match dictGet array column with
  | some (some v) => .ok (String.mk (v.data.take 3999))
  | some none => .error (.typeError "NoneType object is not subscriptable")
  | none => .ok ""

/-- The batch size constant of `handle_table` (source line 258). -/
def batch_size : Nat := 5000

/-- The `array_size` constant of `handle_table` (source line 259), used only
for `cursor.setinputsizes`, which is client-side cursor configuration. -/
def array_size : Nat := 1000

/-- Python `str.strip()`: remove leading and trailing whitespace
characters. -/
def pyStrip (s : String) : String :=
  String.mk (((s.data.dropWhile Char.isWhitespace).reverse.dropWhile
    Char.isWhitespace).reverse)

/-- The value computed for one descriptor item from one `DictReader` row
(source lines 277-278): the lookup key is the descriptor's `csv` header
with surrounding whitespace stripped, while the row's own keys are the file
header names verbatim. -/
def field_value (item : TableItem) (row : List (String × Option String)) :
    Except PyErr String :=
  get_column_value_from_array (pyStrip item.csv) row

/-- The inner for-loop over the descriptor items in `handle_table`
(source lines 275-280): build the row tuple in descriptor field order,
propagating a `TypeError` raised by any cell. -/
def build_row (row : List (String × Option String)) : List TableItem → Except PyErr (List String)
  | [] => .ok []
  | item :: rest =>
      match field_value item row with
      | .error e => .error e
      | .ok v =>
          match build_row row rest with
          | .error e => .error e
          | .ok vs => .ok (v :: vs)

/-- All row tuples of a file, in order, propagating the first `TypeError`. -/
def build_all (items : List TableItem) : List (List (String × Option String)) →
    Except PyErr (List (List String))
  | [] => .ok []
  | r :: rs =>
      match build_row r items with
      | .error e => .error e
      | .ok v =>
          match build_all items rs with
          | .error e => .error e
          | .ok vs => .ok (v :: vs)

/-- `compute_sql_columns` (source line 199). -/
def compute_sql_columns (items : List TableItem) : String :=
  String.intercalate ", " (items.map (fun x => x.col ++ " " ++ x.ty))

/-- `merge_sql_columns` (source line 200): the non-primary-key columns as
`a.col = b.col` assignments. -/
def merge_sql_columns (items : List TableItem) : String :=
  String.intercalate ", " (((items.filter (fun x => x.pk != "y"))).map
    (fun x => "a." ++ x.col ++ " = b." ++ x.col))

/-- `insert_def_sql_columns` (source line 201). -/
def insert_def_sql_columns (items : List TableItem) : String :=
  String.intercalate ", " (items.map (fun x => x.col))

/-- `insert_val_sql_columns` (source line 202). -/
def insert_val_sql_columns (items : List TableItem) : String :=
  String.intercalate ", " (items.map (fun x => "b." ++ x.col))

/-- `insert_bulk_func` (source line 203). -/
def insert_bulk_func (items : List TableItem) : String :=
  String.intercalate ", " (items.map (fun x => x.fn))

/-- The staging table name `table_name + "_TMP"` (source line 198). -/
def tmp_table_name (d : TableDescriptor) : String :=
  d.table_name ++ "_TMP"

/-- The bulk-insert statement built once per descriptor
(source lines 261-264). -/
def insert_sql (d : TableDescriptor) : String :=
  "INSERT INTO " ++ tmp_table_name d ++ " (" ++ insert_def_sql_columns d.items ++
    ") VALUES ( " ++ insert_bulk_func d.items ++ ")"

/-- The create statement for the permanent table (source line 228). -/
def create_main_sql (d : TableDescriptor) (primary_key : String) : String :=
  "create table " ++ d.table_name ++ " ( " ++ compute_sql_columns d.items ++
    " ,CONSTRAINT " ++ d.table_name ++ "_PK PRIMARY KEY (" ++ primary_key ++
    ") USING INDEX) "

/-- The create statement for the staging table (source line 242). -/
def create_tmp_sql (d : TableDescriptor) : String :=
  "create GLOBAL TEMPORARY TABLE " ++ tmp_table_name d ++ " ( " ++
    compute_sql_columns d.items ++ " ) ON COMMIT PRESERVE ROWS "

/-- The catalog existence query (source lines 221 and 235). -/
def user_tables_sql : String :=
  "select count(*) from user_tables where table_name = :table_name"

/-- The merge statement built in `handle_table` (source lines 306-313),
concatenated exactly as in the source (including the absence of a space
before the `when` keywords, which the trailing spaces inside the padded
column names make harmless). -/
def merge_sql (d : TableDescriptor) (primary_key : String) : String :=
  "merge into " ++ d.table_name ++ " a using " ++ tmp_table_name d ++ " b " ++
  "on (a." ++ primary_key ++ " = b." ++ primary_key ++ ")" ++
  "when matched then update set " ++
  merge_sql_columns d.items ++
  "when not matched then insert (" ++
  insert_def_sql_columns d.items ++
  ") values (" ++
  insert_val_sql_columns d.items ++ ")"

/-- The schema-ensuring section of `handle_table` (source lines 219-246):
check the catalog for the permanent table and create it if absent, then the
same for the staging table.  `user_tables` is the set of tables that the
catalog query reports as existing. -/
def schema_ops (user_tables : List String) (d : TableDescriptor) (primary_key : String) :
    List DbOp :=
  [DbOp.scalarQuery user_tables_sql d.table_name] ++
  (if d.table_name ∈ user_tables then [] else [DbOp.execute (create_main_sql d primary_key)]) ++
  [DbOp.scalarQuery user_tables_sql (tmp_table_name d)] ++
  (if tmp_table_name d ∈ user_tables then [] else [DbOp.execute (create_tmp_sql d)])

/-- Outcome of the CSV-loading section of `handle_table`: normal completion
with the final `num_rows` and the trace of database calls; a
`DatabaseError` raised by some `executemany` (the trace holds the calls
that succeeded before it); or a `TypeError` raised while building a row
tuple (with its message and the current `process_location`). -/
inductive LoadOutcome where
  | ok (num_rows : Nat) (ops : List DbOp)
  | dbError (ops : List DbOp)
  | typeError (msg : String) (loc : String) (ops : List DbOp)
deriving DecidableEq

/-- The `for row in csv_reader` loop of `handle_table` together with the
final remainder insert and the commit (source lines 273-294).  `data` is
the accumulating batch, `num_rows` the row counter, `ops` the database
calls already made, `calls` the number of `executemany` calls already made
(the index consumed by the failure oracle `failsAt`), and `loc` the current
`process_location` ("before CSV load" until the first row has been
appended, "before executemany" afterwards). -/
def load_rows (failsAt : Nat → Bool) (sql : String) (items : List TableItem) :
    List (List (String × Option String)) → List (List String) → Nat → List DbOp → Nat →
      String → LoadOutcome
  | [], data, num_rows, ops, calls, _loc =>
      -- source lines 290-294: `if data:` final executemany, then commit
      if data.isEmpty then .ok num_rows (ops ++ [DbOp.commit])
      else if failsAt calls then .dbError ops
      else .ok num_rows (ops ++ [DbOp.executemany sql data, DbOp.commit])
  | r :: rs, data, num_rows, ops, calls, loc =>
      match build_row r items with
      | .error e => .typeError (pyStr e) loc ops
      | .ok rowarray =>
          let data2 := data ++ [rowarray]
          -- source line 285: `if len(data) % batch_size == 0:`
          if data2.length % batch_size == 0 then
            if failsAt calls then .dbError ops
            else load_rows failsAt sql items rs [] (num_rows + 1)
              (ops ++ [DbOp.executemany sql data2]) (calls + 1) "before executemany"
          else load_rows failsAt sql items rs data2 (num_rows + 1) ops calls
            "before executemany"

/-- The whole CSV-loading section, started with empty batch, zero rows,
empty trace and `process_location = "before CSV load"` (set at source
line 271; the first assignment inside the loop body, line 284, only runs
after the first row tuple has been appended). -/
def load_phase (failsAt : Nat → Bool) (sql : String) (items : List TableItem)
    (rows : List (List (String × Option String))) : LoadOutcome :=
  load_rows failsAt sql items rows [] 0 [] 0 "before CSV load"

instance {ε α : Type} [DecidableEq ε] [DecidableEq α] : DecidableEq (Except ε α) :=
  fun a b =>
    match a, b with
    | .ok x, .ok y => if h : x = y then .isTrue (by rw [h]) else .isFalse (by simp [h])
    | .error x, .error y => if h : x = y then .isTrue (by rw [h]) else .isFalse (by simp [h])
    | .ok _, .error _ => .isFalse (by simp)
    | .error _, .ok _ => .isFalse (by simp)

/-- Result of one `handle_table` call: the Python return value or raised
exception, the trace of database calls, and the row count printed by the
"Rows Inserted" message (line 293) when that print is reached.  Note that
`handle_table` never returns a value: both the missing-file path (bare
`return`, line 211) and the fall-through end of the function return Python
`None`. -/
structure HtResult where
  ret : Except PyErr (Option Nat)
  ops : List DbOp
  printed_rows : Option Nat
deriving DecidableEq

/-- `handle_table(connection, inputdata, csv_location)` (source lines
188-326).  `failsAt` is the `executemany` failure oracle, `user_tables`
the catalog contents, `fs` the file system (`os.path.isfile` plus the
parsed CSV content).  The merge `execute` and the commits are modelled as
succeeding.  The `except oracledb.DatabaseError` clause prints and raises
`SystemExit` (line 323); the `except Exception` clause re-raises an
`Exception` with the `process_location` context (line 326). -/
def handle_table (failsAt : Nat → Bool) (user_tables : List String)
    (fs : String → Option CsvFile) (csv_location : String) (inputdata : TableDescriptor) :
    HtResult :=
  -- source lines 195-204: parameters and SQL text, built before the file check
  let path_filename := csv_location ++ "_" ++ inputdata.csv_file
  match inputdata.items.find? (fun c => c.pk == "y") with
  | none =>
      -- the next(...) default None is subscripted with col: TypeError with
      -- process_location still "Start", wrapped by the except Exception clause
      { ret := .error (.exn ("\nError at Procedure: handle_table() - Start - " ++
          "NoneType object is not subscriptable")),
        ops := [], printed_rows := none }
  | some pkItem =>
      let primary_key := pkItem.col
      -- source lines 209-211: missing file is a bare `return` before any DB call
      match fs path_filename with
      | none => { ret := .ok none, ops := [], printed_rows := none }
      | some file =>
          let sops := schema_ops user_tables inputdata primary_key
          let sql := insert_sql inputdata
          match load_phase failsAt sql inputdata.items
              (file.rows.map (dictReaderRow file.fieldnames)) with
          | .ok n lops =>
              -- source lines 301-317: merge and commit, then fall off the end
              { ret := .ok none,
                ops := sops ++ lops ++
                  [DbOp.execute (merge_sql inputdata primary_key), DbOp.commit],
                printed_rows := some n }
          | .dbError lops =>
              { ret := .error .systemExit, ops := sops ++ lops, printed_rows := none }
          | .typeError msg loc lops =>
              { ret := .error (.exn ("\nError at Procedure: handle_table() - " ++
                  loc ++ " - " ++ msg)),
                ops := sops ++ lops, printed_rows := none }

/-- The items list of the compute_json descriptor of `handle_compute` (source lines
109-143), strings transcribed exactly, including the space padding inside
the quoted names. -/
def compute_items : List TableItem := [
  ⟨"tenant_name           ", "tenant_name           ", "varchar2(1000)", "n", ":1  "⟩,
  ⟨"tenant_id             ", "tenant_id             ", "varchar2(100) ", "n", ":2  "⟩,
  ⟨"instance_id           ", "instance_id           ", "varchar2(1000)", "y", ":3  "⟩,
  ⟨"region_name           ", "region_name           ", "varchar2(100) ", "n", ":4  "⟩,
  ⟨"availability_domain   ", "availability_domain   ", "varchar2(100) ", "n", ":5  "⟩,
  ⟨"fault_domain          ", "fault_domain          ", "varchar2(100) ", "n", ":6  "⟩,
  ⟨"compartment_path      ", "compartment_path      ", "varchar2(2000)", "n", ":7  "⟩,
  ⟨"compartment_name      ", "compartment_name      ", "varchar2(1000)", "n", ":8  "⟩,
  ⟨"server_name           ", "server_name           ", "varchar2(1000)", "n", ":9  "⟩,
  ⟨"status                ", "status                ", "varchar2(100) ", "n", ":10 "⟩,
  ⟨"type                  ", "type                  ", "varchar2(1000)", "n", ":11 "⟩,
  ⟨"image                 ", "image                 ", "varchar2(1000)", "n", ":12 "⟩,
  ⟨"primary_vcn           ", "primary_vcn           ", "varchar2(100) ", "n", ":13 "⟩,
  ⟨"primary_subnet        ", "primary_subnet        ", "varchar2(100) ", "n", ":14 "⟩,
  ⟨"shape                 ", "shape                 ", "varchar2(100) ", "n", ":15 "⟩,
  ⟨"ocpus                 ", "ocpus                 ", "number        ", "n", "to_number(:16)"⟩,
  ⟨"memory_gb             ", "memory_gb             ", "number        ", "n", "to_number(:17)"⟩,
  ⟨"local_storage_tb      ", "local_storage_tb      ", "number        ", "n", "to_number(:18)"⟩,
  ⟨"public_ips            ", "public_ips            ", "varchar2(500) ", "n", ":19 "⟩,
  ⟨"private_ips           ", "private_ips           ", "varchar2(500) ", "n", ":20 "⟩,
  ⟨"security_groups       ", "security_groups       ", "varchar2(1000)", "n", ":21 "⟩,
  ⟨"internal_fqdn         ", "internal_fqdn         ", "varchar2(1000)", "n", ":22 "⟩,
  ⟨"time_created          ", "time_created          ", "date          ", "n", "to_date(:23,\x27YYYY-MM-DD HH24:MI\x27)"⟩,
  ⟨"boot_volume           ", "boot_volume           ", "varchar2(100) ", "n", ":24 "⟩,
  ⟨"boot_volume_size_gb   ", "boot_volume_size_gb   ", "number        ", "n", "to_number(:25)"⟩,
  ⟨"boot_volume_b_policy  ", "boot_volume_b_policy  ", "varchar2(1000)", "n", ":26 "⟩,
  ⟨"boot_volume_encryption", "boot_volume_encryption", "varchar2(20)  ", "n", ":27 "⟩,
  ⟨"block_volumes         ", "block_volumes         ", "varchar2(1000)", "n", ":28 "⟩,
  ⟨"block_volumes_total_gb", "block_volumes_total_gb", "number        ", "n", "to_number(:29)"⟩,
  ⟨"block_volumes_b_policy", "block_volumes_b_policy", "varchar2(1000)", "n", ":30 "⟩,
  ⟨"defined_tags          ", "defined_tags          ", "varchar2(4000)", "n", ":31 "⟩,
  ⟨"freeform_tags         ", "freeform_tags         ", "varchar2(4000)", "n", ":32 "⟩,
  ⟨"extract_date          ", "extract_date          ", "date          ", "n", "to_date(:33,\x27YYYY-MM-DD HH24:MI:SS\x27)"⟩]

/-- The items list of `handle_block_volume` (source lines 159-178);
the source also calls this local variable `compute_json`. -/
def block_volume_items : List TableItem := [
  ⟨"tenant_name        ", "tenant_name        ", "varchar2(1000)", "n", ":1  "⟩,
  ⟨"tenant_id          ", "tenant_id          ", "varchar2(100) ", "n", ":2  "⟩,
  ⟨"id                 ", "id                 ", "varchar2(1000)", "y", ":3  "⟩,
  ⟨"region_name        ", "region_name        ", "varchar2(100) ", "n", ":4  "⟩,
  ⟨"availability_domain", "availability_domain", "varchar2(100) ", "n", ":5  "⟩,
  ⟨"fault_domain       ", "fault_domain       ", "varchar2(100) ", "n", ":6  "⟩,
  ⟨"compartment_path   ", "compartment_path   ", "varchar2(2000)", "n", ":7  "⟩,
  ⟨"compartment_name   ", "compartment_name   ", "varchar2(1000)", "n", ":8  "⟩,
  ⟨"display_name       ", "display_name       ", "varchar2(1000)", "n", ":9  "⟩,
  ⟨"size_gb            ", "size               ", "number        ", "n", "to_number(:10)"⟩,
  ⟨"backup_policy      ", "backup_policy      ", "varchar2(100) ", "n", ":11 "⟩,
  ⟨"vpus_per_gb        ", "vpus_per_gb        ", "number        ", "n", "to_number(:12)"⟩,
  ⟨"volume_group_name  ", "volume_group_name  ", "varchar2(1000)", "n", ":13 "⟩,
  ⟨"instance_name      ", "instance_name      ", "varchar2(100) ", "n", ":14 "⟩,
  ⟨"instance_id        ", "instance_id        ", "varchar2(100) ", "n", ":15 "⟩,
  ⟨"defined_tags       ", "defined_tags       ", "varchar2(4000)", "n", ":16 "⟩,
  ⟨"freeform_tags      ", "freeform_tags      ", "varchar2(4000)", "n", ":17 "⟩,
  ⟨"extract_date       ", "extract_date       ", "date          ", "n", "to_date(:18,\x27YYYY-MM-DD HH24:MI:SS\x27)"⟩]

/-- The `compute_json` descriptor of `handle_compute` (source lines 106-144). -/
def compute_json : TableDescriptor :=
  { table_name := "OCI_SHOWOCI_COMPUTE", csv_file := "compute.csv", items := compute_items }

/-- The descriptor of `handle_block_volume` (source lines 156-179); the
source also names this local variable `compute_json`. -/
def block_volume_json : TableDescriptor :=
  { table_name := "OCI_SHOWOCI_BLOCK_VOLUMES", csv_file := "block_volumes.csv",
    items := block_volume_items }

/-- `handle_compute` (source lines 103-147): run `handle_table` on the
compute descriptor; `except Exception` wraps any `Exception` with the
procedure name, while `SystemExit` passes through uncaught.  The function
itself returns Python `None`. -/
def handle_compute (failsAt : Nat → Bool) (user_tables : List String)
    (fs : String → Option CsvFile) (csv_location : String) : HtResult :=
  let r := handle_table failsAt user_tables fs csv_location compute_json
  match r.ret with
  | .ok _ => { r with ret := .ok none }
  | .error .systemExit => { r with ret := .error .systemExit }
  | .error e =>
      { r with ret := .error (.exn ("\nError at procedure: handle_compute - " ++ pyStr e)) }

/-- `handle_block_volume` (source lines 153-182): identical wrapping, and
the re-raised message names `handle_compute` (source line 182), not
`handle_block_volume`. -/
def handle_block_volume (failsAt : Nat → Bool) (user_tables : List String)
    (fs : String → Option CsvFile) (csv_location : String) : HtResult :=
  let r := handle_table failsAt user_tables fs csv_location block_volume_json
  match r.ret with
  | .ok _ => { r with ret := .ok none }
  | .error .systemExit => { r with ret := .error .systemExit }
  | .error e =>
      { r with ret := .error (.exn ("\nError at procedure: handle_compute - " ++ pyStr e)) }

/-- Observable outcome of `main_process` (source lines 332-374) after the
connection has been opened: the database calls made, whether
`handle_block_volume` was reached, and whether the final
`"Completed at ..."` message (line 374) was printed.  The driver's
`except oracledb.DatabaseError` and `except Exception` clauses print the
error and fall through to the completion print; an uncaught `SystemExit`
terminates the process before it. -/
structure MainRun where
  ops : List DbOp
  ranBlockVolume : Bool
  completed_printed : Bool
deriving DecidableEq

/-- The descriptor-processing part of `main_process` (source lines 355-374):
`handle_compute` then `handle_block_volume` inside one `try`, with the two
`except` clauses at lines 365-369 and the completion print at line 374. -/
def main_process (failsAt : Nat → Bool) (user_tables : List String)
    (fs : String → Option CsvFile) (csvlocation : String) : MainRun :=
  let r1 := handle_compute failsAt user_tables fs csvlocation
  match r1.ret with
  | .ok _ =>
      let r2 := handle_block_volume failsAt user_tables fs csvlocation
      match r2.ret with
      | .ok _ => { ops := r1.ops ++ r2.ops, ranBlockVolume := true, completed_printed := true }
      | .error .systemExit =>
          { ops := r1.ops ++ r2.ops, ranBlockVolume := true, completed_printed := false }
      | .error _ =>
          { ops := r1.ops ++ r2.ops, ranBlockVolume := true, completed_printed := true }
  | .error .systemExit => { ops := r1.ops, ranBlockVolume := false, completed_printed := false }
  | .error _ => { ops := r1.ops, ranBlockVolume := false, completed_printed := true }

/-- Spec-side definition (refinement target for the merge claim), following
the words of the specification: an upsert of the form
`MERGE INTO t a USING s b ON (a.pk = b.pk) WHEN MATCHED THEN UPDATE SET
<non-key a.col = b.col> WHEN NOT MATCHED THEN INSERT (<all columns>)
VALUES (<staging columns>)`, parameterised by the table names, the key and
the column lists.  SQL keywords are case-insensitive; they are written in
the lower case the generated statement uses, with the generated
statement's spacing. -/
def upsert_form (table staging pk : String) (non_key_cols all_cols : List String) : String :=
  "merge into " ++ table ++ " a using " ++ staging ++ " b " ++
  "on (a." ++ pk ++ " = b." ++ pk ++ ")" ++
  "when matched then update set " ++
  String.intercalate ", " (non_key_cols.map (fun c => "a." ++ c ++ " = b." ++ c)) ++
  "when not matched then insert (" ++
  String.intercalate ", " all_cols ++
  ") values (" ++
  String.intercalate ", " (all_cols.map (fun c => "b." ++ c)) ++ ")"

/-- Spec-side batching of a list into consecutive groups of 5000 (the batch
size), used to state what the interleaved loop of `load_rows` produces. -/
def chunk5000 : List (List String) → List (List (List String))
  | [] => []
  | x :: xs => ((x :: xs).take 5000) :: chunk5000 ((x :: xs).drop 5000)
termination_by l => l.length
decreasing_by
  simp
  omega

/-! ### Helper lemmas -/

theorem dictGet_dictReaderRow_of_not_mem (c : String) :
    ∀ (hs vs : List String), c ∉ hs → dictGet (dictReaderRow hs vs) c = none := by
  intro hs
  induction hs with
  | nil => intro vs _; cases vs <;> simp [dictReaderRow, dictGet]
  | cons h hs ih =>
      intro vs hmem
      have hne : h ≠ c := fun he => hmem (by simp [he])
      have htail : c ∉ hs := fun ht => hmem (by simp [ht])
      cases vs with
      | nil => simp [dictReaderRow, dictGet, ih [] htail, hne]
      | cons v vs => simp [dictReaderRow, dictGet, ih vs htail, hne]

theorem dictGet_dictReaderRow_short (c : String) :
    ∀ (A : List String) (B : List String) (vs : List String), c ∉ B →
      vs.length ≤ A.length → dictGet (dictReaderRow (A ++ c :: B) vs) c = some none := by
  intro A
  induction A with
  | nil =>
      intro B vs hB hlen
      have : vs = [] := List.eq_nil_of_length_eq_zero (Nat.le_zero.mp hlen)
      subst this
      simp [dictReaderRow, dictGet, dictGet_dictReaderRow_of_not_mem c B [] hB]
  | cons a A ih =>
      intro B vs hB hlen
      cases vs with
      | nil => simp [dictReaderRow, dictGet, ih B [] hB (by simp)]
      | cons v vs =>
          have : vs.length ≤ A.length := by simpa using hlen
          simp [dictReaderRow, dictGet, ih B vs hB this]

theorem chunk5000_eq_nil_iff (l : List (List String)) : chunk5000 l = [] ↔ l = [] := by
  cases l <;> simp [chunk5000]

theorem chunk5000_small (l : List (List String)) (h : l.length ≤ 5000) :
    chunk5000 l = if l = [] then [] else [l] := by
  cases l with
  | nil => simp [chunk5000]
  | cons x xs =>
      simp only [chunk5000, List.take_of_length_le h, List.drop_eq_nil_of_le h]
      simp [chunk5000]

theorem chunk5000_cons_of_len (l m : List (List String)) (h : l.length = 5000) :
    chunk5000 (l ++ m) = l :: chunk5000 m := by
  cases l with
  | nil => simp at h
  | cons x xs =>
      show chunk5000 (x :: (xs ++ m)) = _
      rw [chunk5000]
      rw [show x :: (xs ++ m) = (x :: xs) ++ m from rfl]
      rw [List.take_left' h, List.drop_left' h]

theorem chunk5000_flatten (l : List (List String)) : (chunk5000 l).flatten = l := by
  induction l using chunk5000.induct with
  | case1 => simp [chunk5000]
  | case2 x xs ih =>
      rw [chunk5000, List.flatten_cons, ih, List.take_append_drop]

theorem chunk5000_sizes (l : List (List String)) :
    ∀ b ∈ chunk5000 l, b ≠ [] ∧ b.length ≤ 5000 := by
  induction l using chunk5000.induct with
  | case1 => simp [chunk5000]
  | case2 x xs ih =>
      rw [chunk5000]
      intro b hb
      rcases List.mem_cons.mp hb with h | h
      · subst h
        refine ⟨by simp, ?_⟩
        rw [List.length_take]
        exact min_le_left _ _
      · exact ih b h

theorem chunk5000_dropLast (l : List (List String)) :
    ∀ b ∈ (chunk5000 l).dropLast, b.length = 5000 := by
  induction l using chunk5000.induct with
  | case1 => simp [chunk5000]
  | case2 x xs ih =>
      rw [chunk5000]
      by_cases hrest : chunk5000 ((x :: xs).drop 5000) = []
      · rw [hrest]
        simp
      · rw [List.dropLast_cons_of_ne_nil hrest]
        intro b hb
        rcases List.mem_cons.mp hb with h | h
        · subst h
          have hdrop : (x :: xs).drop 5000 ≠ [] := by
            intro he
            exact hrest (by rw [he]; simp [chunk5000])
          have hlen : 5000 < (x :: xs).length := by
            by_contra hle
            exact hdrop (List.drop_eq_nil_of_le (Nat.le_of_not_lt hle))
          rw [List.length_take]
          omega
        · exact ih b h

theorem build_all_length (items : List TableItem) :
    ∀ (rows : List (List (String × Option String))) (evR : List (List String)),
      build_all items rows = .ok evR → evR.length = rows.length := by
  intro rows
  induction rows with
  | nil => intro evR h; simp [build_all] at h; simp [← h]
  | cons r rs ih =>
      intro evR h
      simp only [build_all] at h
      cases hbr : build_row r items with
      | error e => rw [hbr] at h; cases h
      | ok v =>
          rw [hbr] at h
          cases hba : build_all items rs with
          | error e => rw [hba] at h; cases h
          | ok vs =>
              rw [hba] at h
              cases h
              simp [ih vs hba]

theorem load_rows_noFail (sql : String) (items : List TableItem) :
    ∀ (rows : List (List (String × Option String))) (evR data : List (List String))
      (n : Nat) (ops : List DbOp) (calls : Nat) (loc : String),
      build_all items rows = .ok evR → data.length < 5000 →
      load_rows (fun _ => false) sql items rows data n ops calls loc =
        .ok (n + rows.length)
          (ops ++ (chunk5000 (data ++ evR)).map (fun b => DbOp.executemany sql b) ++
            [DbOp.commit]) := by
  intro rows
  induction rows with
  | nil =>
      intro evR data n ops calls loc hb hlt
      simp only [build_all] at hb
      cases hb
      by_cases hd : data = []
      · subst hd
        simp [load_rows, chunk5000]
      · have hsmall := chunk5000_small data (Nat.le_of_lt hlt)
        rw [if_neg hd] at hsmall
        simp [load_rows, hd, hsmall, List.isEmpty_iff]
  | cons r rs ih =>
      intro evR data n ops calls loc hb hlt
      simp only [build_all] at hb
      cases hbr : build_row r items with
      | error e => rw [hbr] at hb; cases hb
      | ok v =>
          rw [hbr] at hb
          cases hba : build_all items rs with
          | error e => rw [hba] at hb; cases hb
          | ok evR' =>
              rw [hba] at hb
              cases hb
              have hlen2 : (data ++ [v]).length = data.length + 1 := by simp
              have happ : data ++ v :: evR' = (data ++ [v]) ++ evR' := by simp
              simp only [load_rows, hbr]
              by_cases hc : data.length + 1 = 5000
              · have hcond : ((data ++ [v]).length % batch_size == 0) = true := by
                  simp [batch_size, hlen2, hc]
                rw [hcond]
                simp only [if_true, Bool.false_eq_true, if_false]
                rw [ih evR' [] (n + 1) (ops ++ [DbOp.executemany sql (data ++ [v])])
                  (calls + 1) "before executemany" hba (by norm_num)]
                rw [happ, chunk5000_cons_of_len (data ++ [v]) evR' (by omega)]
                simp [Nat.add_assoc, Nat.add_comm 1 rs.length]
              · have hlt2 : data.length + 1 < 5000 := by omega
                have hcond : ((data ++ [v]).length % batch_size == 0) = false := by
                  simp [batch_size, hlen2, Nat.mod_eq_of_lt hlt2]
                rw [hcond]
                simp only [Bool.false_eq_true, if_false]
                rw [ih evR' (data ++ [v]) (n + 1) ops calls "before executemany" hba
                  (by omega)]
                rw [happ]
                simp [Nat.add_assoc, Nat.add_comm 1 rs.length]

theorem load_rows_num (failsAt : Nat → Bool) (sql : String) (items : List TableItem) :
    ∀ (rows : List (List (String × Option String))) (data : List (List String))
      (n : Nat) (ops : List DbOp) (calls : Nat) (loc : String) (m : Nat) (ops' : List DbOp),
      load_rows failsAt sql items rows data n ops calls loc = .ok m ops' →
      m = n + rows.length := by
  intro rows
  induction rows with
  | nil =>
      intro data n ops calls loc m ops' h
      simp only [load_rows] at h
      by_cases hd : data.isEmpty
      · rw [if_pos hd] at h; cases h; simp
      · rw [if_neg hd] at h
        by_cases hf : failsAt calls = true
        · rw [if_pos hf] at h; cases h
        · rw [if_neg hf] at h; cases h; simp
  | cons r rs ih =>
      intro data n ops calls loc m ops' h
      simp only [load_rows] at h
      cases hbr : build_row r items with
      | error e => rw [hbr] at h; cases h
      | ok v =>
          rw [hbr] at h
          simp only [] at h
          by_cases hc : ((data ++ [v]).length % batch_size == 0) = true
          · rw [if_pos hc] at h
            by_cases hf : failsAt calls = true
            · rw [if_pos hf] at h; cases h
            · rw [if_neg hf] at h
              have := ih [] (n + 1) (ops ++ [DbOp.executemany sql (data ++ [v])])
                (calls + 1) "before executemany" m ops' h
              simp [this]; omega
          · rw [if_neg hc] at h
            have := ih (data ++ [v]) (n + 1) ops calls "before executemany" m ops' h
            simp [this]; omega

theorem load_rows_ops_kinds (failsAt : Nat → Bool) (sql : String) (items : List TableItem) :
    ∀ (rows : List (List (String × Option String))) (data : List (List String))
      (n : Nat) (ops : List DbOp) (calls : Nat) (loc : String) (m : Nat) (ops' : List DbOp),
      load_rows failsAt sql items rows data n ops calls loc = .ok m ops' →
      ∀ op ∈ ops', op ∈ ops ∨ (∃ b, op = DbOp.executemany sql b) ∨ op = DbOp.commit := by
  intro rows
  induction rows with
  | nil =>
      intro data n ops calls loc m ops' h op hop
      simp only [load_rows] at h
      by_cases hd : data.isEmpty
      · rw [if_pos hd] at h
        cases h
        rcases List.mem_append.mp hop with h1 | h1
        · exact Or.inl h1
        · simp at h1; simp [h1]
      · rw [if_neg hd] at h
        by_cases hf : failsAt calls = true
        · rw [if_pos hf] at h; cases h
        · rw [if_neg hf] at h
          cases h
          rcases List.mem_append.mp hop with h1 | h1
          · exact Or.inl h1
          · simp at h1
            rcases h1 with h1 | h1
            · exact Or.inr (Or.inl ⟨data, h1⟩)
            · simp [h1]
  | cons r rs ih =>
      intro data n ops calls loc m ops' h op hop
      simp only [load_rows] at h
      cases hbr : build_row r items with
      | error e => rw [hbr] at h; cases h
      | ok v =>
          rw [hbr] at h
          simp only [] at h
          by_cases hc : ((data ++ [v]).length % batch_size == 0) = true
          · rw [if_pos hc] at h
            by_cases hf : failsAt calls = true
            · rw [if_pos hf] at h; cases h
            · rw [if_neg hf] at h
              rcases ih [] (n + 1) (ops ++ [DbOp.executemany sql (data ++ [v])])
                (calls + 1) "before executemany" m ops' h op hop with h1 | h1
              · rcases List.mem_append.mp h1 with h2 | h2
                · exact Or.inl h2
                · simp at h2
                  exact Or.inr (Or.inl ⟨data ++ [v], h2⟩)
              · exact Or.inr h1
          · rw [if_neg hc] at h
            exact ih (data ++ [v]) (n + 1) ops calls "before executemany" m ops' h op hop

theorem load_rows_commit (failsAt : Nat → Bool) (sql : String) (items : List TableItem) :
    ∀ (rows : List (List (String × Option String))) (data : List (List String))
      (n : Nat) (ops : List DbOp) (calls : Nat) (loc : String),
      DbOp.commit ∉ ops →
      (∀ m ops', load_rows failsAt sql items rows data n ops calls loc = .ok m ops' →
        ∃ pre, ops' = pre ++ [DbOp.commit] ∧ DbOp.commit ∉ pre) ∧
      (∀ ops', load_rows failsAt sql items rows data n ops calls loc = .dbError ops' →
        DbOp.commit ∉ ops') ∧
      (∀ msg loc' ops',
        load_rows failsAt sql items rows data n ops calls loc = .typeError msg loc' ops' →
        DbOp.commit ∉ ops') := by
  intro rows
  induction rows with
  | nil =>
      intro data n ops calls loc hops
      refine ⟨?_, ?_, ?_⟩
      · intro m ops' h
        simp only [load_rows] at h
        by_cases hd : data.isEmpty
        · rw [if_pos hd] at h
          cases h
          exact ⟨ops, rfl, hops⟩
        · rw [if_neg hd] at h
          by_cases hf : failsAt calls = true
          · rw [if_pos hf] at h; cases h
          · rw [if_neg hf] at h
            cases h
            refine ⟨ops ++ [DbOp.executemany sql data], by simp, ?_⟩
            simp [hops]
      · intro ops' h
        simp only [load_rows] at h
        by_cases hd : data.isEmpty
        · rw [if_pos hd] at h; cases h
        · rw [if_neg hd] at h
          by_cases hf : failsAt calls = true
          · rw [if_pos hf] at h; cases h; exact hops
          · rw [if_neg hf] at h; cases h
      · intro msg loc' ops' h
        simp only [load_rows] at h
        by_cases hd : data.isEmpty
        · rw [if_pos hd] at h; cases h
        · rw [if_neg hd] at h
          by_cases hf : failsAt calls = true
          · rw [if_pos hf] at h; cases h
          · rw [if_neg hf] at h; cases h
  | cons r rs ih =>
      intro data n ops calls loc hops
      refine ⟨?_, ?_, ?_⟩
      · intro m ops' h
        simp only [load_rows] at h
        cases hbr : build_row r items with
        | error e => rw [hbr] at h; cases h
        | ok v =>
            rw [hbr] at h
            simp only [] at h
            by_cases hc : ((data ++ [v]).length % batch_size == 0) = true
            · rw [if_pos hc] at h
              by_cases hf : failsAt calls = true
              · rw [if_pos hf] at h; cases h
              · rw [if_neg hf] at h
                have hops2 : DbOp.commit ∉ ops ++ [DbOp.executemany sql (data ++ [v])] := by
                  simp [hops]
                exact (ih [] (n + 1) (ops ++ [DbOp.executemany sql (data ++ [v])])
                  (calls + 1) "before executemany" hops2).1 m ops' h
            · rw [if_neg hc] at h
              exact (ih (data ++ [v]) (n + 1) ops calls "before executemany" hops).1
                m ops' h
      · intro ops' h
        simp only [load_rows] at h
        cases hbr : build_row r items with
        | error e => rw [hbr] at h; cases h
        | ok v =>
            rw [hbr] at h
            simp only [] at h
            by_cases hc : ((data ++ [v]).length % batch_size == 0) = true
            · rw [if_pos hc] at h
              by_cases hf : failsAt calls = true
              · rw [if_pos hf] at h; cases h; exact hops
              · rw [if_neg hf] at h
                have hops2 : DbOp.commit ∉ ops ++ [DbOp.executemany sql (data ++ [v])] := by
                  simp [hops]
                exact (ih [] (n + 1) (ops ++ [DbOp.executemany sql (data ++ [v])])
                  (calls + 1) "before executemany" hops2).2.1 ops' h
            · rw [if_neg hc] at h
              exact (ih (data ++ [v]) (n + 1) ops calls "before executemany" hops).2.1
                ops' h
      · intro msg loc' ops' h
        simp only [load_rows] at h
        cases hbr : build_row r items with
        | error e => rw [hbr] at h; cases h; exact hops
        | ok v =>
            rw [hbr] at h
            simp only [] at h
            by_cases hc : ((data ++ [v]).length % batch_size == 0) = true
            · rw [if_pos hc] at h
              by_cases hf : failsAt calls = true
              · rw [if_pos hf] at h; cases h
              · rw [if_neg hf] at h
                have hops2 : DbOp.commit ∉ ops ++ [DbOp.executemany sql (data ++ [v])] := by
                  simp [hops]
                exact (ih [] (n + 1) (ops ++ [DbOp.executemany sql (data ++ [v])])
                  (calls + 1) "before executemany" hops2).2.2 msg loc' ops' h
            · rw [if_neg hc] at h
              exact (ih (data ++ [v]) (n + 1) ops calls "before executemany" hops).2.2
                msg loc' ops' h

theorem head_of_append_left (s t : String) (c : Char) (h : s.data.head? = some c) :
    (s ++ t).data.head? = some c := by
  rw [String.data_append]
  cases hs : s.data with
  | nil => rw [hs] at h; cases h
  | cons a l => rw [hs] at h; cases h; simp

theorem merge_sql_head (d : TableDescriptor) (pk : String) :
    (merge_sql d pk).data.head? = some 'm' := by
  unfold merge_sql
  repeat apply head_of_append_left
  decide

theorem create_main_sql_head (d : TableDescriptor) (pk : String) :
    (create_main_sql d pk).data.head? = some 'c' := by
  unfold create_main_sql
  repeat apply head_of_append_left
  decide

theorem create_tmp_sql_head (d : TableDescriptor) :
    (create_tmp_sql d).data.head? = some 'c' := by
  unfold create_tmp_sql
  repeat apply head_of_append_left
  decide

theorem merge_sql_ne_create_main (d d' : TableDescriptor) (pk pk' : String) :
    merge_sql d pk ≠ create_main_sql d' pk' := by
  intro h
  have h1 := merge_sql_head d pk
  rw [h, create_main_sql_head d' pk'] at h1
  cases h1

theorem merge_sql_ne_create_tmp (d d' : TableDescriptor) (pk : String) :
    merge_sql d pk ≠ create_tmp_sql d' := by
  intro h
  have h1 := merge_sql_head d pk
  rw [h, create_tmp_sql_head d'] at h1
  cases h1

theorem schema_ops_no_merge (ut : List String) (d d' : TableDescriptor) (pk pk' : String) :
    DbOp.execute (merge_sql d' pk') ∉ schema_ops ut d pk := by
  intro hmem
  unfold schema_ops at hmem
  rcases List.mem_append.mp hmem with h1 | h1
  · rcases List.mem_append.mp h1 with h2 | h2
    · rcases List.mem_append.mp h2 with h3 | h3
      · cases List.mem_singleton.mp h3
      · by_cases hc : d.table_name ∈ ut
        · rw [if_pos hc] at h3
          exact List.not_mem_nil _ h3
        · rw [if_neg hc] at h3
          have he := List.mem_singleton.mp h3
          injection he with he2
          exact merge_sql_ne_create_main d' d pk' pk he2
    · cases List.mem_singleton.mp h2
  · by_cases hc : tmp_table_name d ∈ ut
    · rw [if_pos hc] at h1
      exact List.not_mem_nil _ h1
    · rw [if_neg hc] at h1
      have he := List.mem_singleton.mp h1
      injection he with he2
      exact merge_sql_ne_create_tmp d' d pk' he2

/-! ### Claim theorems -/

/-- C1: for every descriptor and every source CSV file, the total number of
rows inserted into the staging table equals the number of data rows in the
CSV (header excluded), independent of batch boundaries: the loop bulk-inserts
and clears a full batch of 5000 rows each time the accumulator reaches 5000,
and after the file is exhausted any non-empty remainder is inserted in one
final bulk insert.  The trace is exactly the 5000-chunking of the evaluated
rows: every chunk is a non-empty `executemany` batch of at most 5000 rows,
all chunks but the last hold exactly 5000 rows, and their concatenation is
the full row list. -/
theorem staging_row_count_matches_csv (sql : String) (items : List TableItem)
    (file : CsvFile) (evRows : List (List String))
    (h : build_all items (file.rows.map (dictReaderRow file.fieldnames)) = .ok evRows) :
    load_phase (fun _ => false) sql items (file.rows.map (dictReaderRow file.fieldnames)) =
      .ok file.rows.length
        ((chunk5000 evRows).map (fun b => DbOp.executemany sql b) ++ [DbOp.commit]) ∧
    (chunk5000 evRows).flatten = evRows ∧
    evRows.length = file.rows.length ∧
    (∀ b ∈ chunk5000 evRows, b ≠ [] ∧ b.length ≤ 5000) ∧
    (∀ b ∈ (chunk5000 evRows).dropLast, b.length = 5000) := by
  have hlen : (file.rows.map (dictReaderRow file.fieldnames)).length = file.rows.length := by
    simp
  refine ⟨?_, chunk5000_flatten evRows, ?_, chunk5000_sizes evRows, chunk5000_dropLast evRows⟩
  · have hmain := load_rows_noFail sql items (file.rows.map (dictReaderRow file.fieldnames))
      evRows [] 0 [] 0 "before CSV load" h (by norm_num)
    rw [load_phase, hmain]
    simp [hlen]
  · rw [build_all_length items _ evRows h, hlen]

/-- C1 witness: a two-row file on a one-field descriptor. -/
theorem staging_row_count_matches_csv_witness :
    load_phase (fun _ => false) "S" [⟨"h", "h", "t", "y", ":1"⟩]
        ((CsvFile.mk ["h"] [["x"], ["y"]]).rows.map
          (dictReaderRow (CsvFile.mk ["h"] [["x"], ["y"]]).fieldnames)) =
      .ok (CsvFile.mk ["h"] [["x"], ["y"]]).rows.length
        ((chunk5000 [["x"], ["y"]]).map (fun b => DbOp.executemany "S" b) ++ [DbOp.commit]) ∧
    (chunk5000 [["x"], ["y"]]).flatten = [["x"], ["y"]] ∧
    ([["x"], ["y"]] : List (List String)).length = (CsvFile.mk ["h"] [["x"], ["y"]]).rows.length ∧
    (∀ b ∈ chunk5000 [["x"], ["y"]], b ≠ [] ∧ b.length ≤ 5000) ∧
    (∀ b ∈ (chunk5000 [["x"], ["y"]]).dropLast, b.length = 5000) :=
  staging_row_count_matches_csv "S" [⟨"h", "h", "t", "y", ":1"⟩]
    (CsvFile.mk ["h"] [["x"], ["y"]]) [["x"], ["y"]] (by decide)

/-- C5: during the load of one CSV file the commit is issued exactly once,
after all bulk inserts (the successful trace is some prefix without a
commit followed by the single final commit); and if a `DatabaseError` (or a
`TypeError`) interrupts the load, the trace of calls made so far contains
no commit at all, so every batch inserted earlier is still uncommitted at
the moment of failure. -/
theorem commit_once_after_all_inserts (failsAt : Nat → Bool) (sql : String)
    (items : List TableItem) (rows : List (List (String × Option String))) :
    (∀ m ops, load_phase failsAt sql items rows = .ok m ops →
      ∃ pre, ops = pre ++ [DbOp.commit] ∧ DbOp.commit ∉ pre) ∧
    (∀ ops, load_phase failsAt sql items rows = .dbError ops → DbOp.commit ∉ ops) ∧
    (∀ msg loc ops, load_phase failsAt sql items rows = .typeError msg loc ops →
      DbOp.commit ∉ ops) :=
  load_rows_commit failsAt sql items rows [] 0 [] 0 "before CSV load" (by simp)

/-- C5 witness: a successful one-row load and a load whose only insert
fails. -/
theorem commit_once_after_all_inserts_witness :
    (∃ pre, [DbOp.executemany "S" [["v"]], DbOp.commit] = pre ++ [DbOp.commit] ∧
      DbOp.commit ∉ pre) ∧
    DbOp.commit ∉ ([] : List DbOp) :=
  ⟨(commit_once_after_all_inserts (fun _ => false) "S" [⟨"c", "c", "t", "y", ":1"⟩]
      [[("c", some "v")]]).1 1 [DbOp.executemany "S" [["v"]], DbOp.commit] (by decide),
    (commit_once_after_all_inserts (fun _ => true) "S" [⟨"c", "c", "t", "y", ":1"⟩]
      [[("c", some "v")]]).2.1 [] (by decide)⟩

/-- C2 counterexample: the code truncates with the slice `[0:3999]`, so a
4001-character value is stored with 3999 characters, not the 4000 the claim
states. -/
theorem truncation_cex :
    get_column_value_from_array "defined_tags"
        [("defined_tags", some (String.mk (List.replicate 4001 'a')))] =
      .ok (String.mk (List.replicate 3999 'a')) ∧
    (String.mk (List.replicate 4001 'a')).length > 4000 ∧
    (String.mk (List.replicate 3999 'a')).length ≠ 4000 := by
  have hmin : min 3999 4001 = 3999 := by norm_num
  refine ⟨?_, ?_, ?_⟩
  · have hd : dictGet [("defined_tags", some (String.mk (List.replicate 4001 'a')))]
        "defined_tags" = some (some (String.mk (List.replicate 4001 'a'))) := by
      simp [dictGet]
    simp only [get_column_value_from_array, hd]
    rw [List.take_replicate, hmin]
  · show (List.replicate 4001 'a').length > 4000
    rw [List.length_replicate]
    norm_num
  · show (List.replicate 3999 'a').length ≠ 4000
    rw [List.length_replicate]
    norm_num

/-- C2 amended: every text value found in the row dict is stored truncated
to at most 3999 characters (`[0:3999]`), silently: the result is the first
`min 3999 (length)` characters and no error is raised. -/
theorem text_truncated_to_3999 (column : String) (array : List (String × Option String))
    (s : String) (h : dictGet array column = some (some s)) :
    ∃ t, get_column_value_from_array column array = .ok t ∧
      t.length = min 3999 s.length ∧ t.data = s.data.take 3999 := by
  refine ⟨String.mk (s.data.take 3999), ?_, ?_, rfl⟩
  · simp [get_column_value_from_array, h]
  · show (s.data.take 3999).length = min 3999 s.length
    rw [List.length_take]
    rfl

/-- C2 witness. -/
theorem text_truncated_to_3999_witness :
    ∃ t, get_column_value_from_array "k" [("k", some "abc")] = .ok t ∧
      t.length = min 3999 ("abc" : String).length ∧
      t.data = ("abc" : String).data.take 3999 :=
  text_truncated_to_3999 "k" [("k", some "abc")] "abc" (by decide)

/-- C3 counterexample: a data row shorter than the header (here the header
has `tenant_name,tenant_id` and the row only `acme`) gives the dict value
`None` for `tenant_id`, and `None[0:3999]` raises a `TypeError` instead of
producing an empty string, so the row build fails. -/
theorem short_row_cex :
    get_column_value_from_array "tenant_id"
        (dictReaderRow ["tenant_name", "tenant_id"] ["acme"]) =
      .error (.typeError "NoneType object is not subscriptable") ∧
    build_row (dictReaderRow ["tenant_name", "tenant_id"] ["acme"])
        [⟨"tenant_id", "tenant_id", "varchar2(100)", "y", ":1"⟩] =
      .error (.typeError "NoneType object is not subscriptable") := by
  constructor
  · decide
  · decide

/-- C3 amended: a header absent from the whole file maps to the empty
string with no failure, for every row; but a mapped header whose value is
missing because the individual row is shorter than the header yields Python
`None` and the subscript raises a `TypeError` — not an empty string. -/
theorem absent_field_policy :
    (∀ (hs vs : List String) (c : String), c ∉ hs →
      get_column_value_from_array c (dictReaderRow hs vs) = .ok "") ∧
    (∀ (A B vs : List String) (c : String), c ∉ B → vs.length ≤ A.length →
      get_column_value_from_array c (dictReaderRow (A ++ c :: B) vs) =
        .error (.typeError "NoneType object is not subscriptable")) := by
  constructor
  · intro hs vs c h
    simp [get_column_value_from_array, dictGet_dictReaderRow_of_not_mem c hs vs h]
  · intro A B vs c hB hlen
    simp [get_column_value_from_array, dictGet_dictReaderRow_short c A B vs hB hlen]

/-- C3 amended witness. -/
theorem absent_field_policy_witness :
    get_column_value_from_array "x" (dictReaderRow ["a"] []) = .ok "" ∧
    get_column_value_from_array "b" (dictReaderRow (["a"] ++ "b" :: []) ["v"]) =
      .error (.typeError "NoneType object is not subscriptable") :=
  ⟨absent_field_policy.1 ["a"] [] "x" (by decide),
    absent_field_policy.2 ["a"] [] ["v"] "b" (by decide) (by decide)⟩

/-- C9: the lookup key for a descriptor field is its `csv` header stripped
of surrounding whitespace (`field_value` uses `pyStrip item.csv`), while
the file's own header names enter the row dict verbatim; hence a file
header that differs from the stripped key only by surrounding whitespace
never matches, and — when no file header equals the stripped key — the
column is loaded as the empty string in every row. -/
theorem stripped_key_never_matches_padded_header (f : TableItem) (hs : List String)
    (h0 : String) (hmem : h0 ∈ hs) (htrim : pyStrip h0 = pyStrip f.csv)
    (hne : h0 ≠ pyStrip f.csv) (hall : ∀ h ∈ hs, h ≠ pyStrip f.csv) :
    ∀ vs : List String, field_value f (dictReaderRow hs vs) = .ok "" := by
  intro vs
  have hnm : pyStrip f.csv ∉ hs := fun hc => hall _ hc rfl
  simp [field_value, get_column_value_from_array,
    dictGet_dictReaderRow_of_not_mem _ hs vs hnm]

/-- C9 witness: the file header `"tenant_id "` (trailing blank) never
matches the stripped key `tenant_id`. -/
theorem stripped_key_never_matches_padded_header_witness :
    field_value ⟨"tenant_id          ", "tenant_id          ", "varchar2(100) ", "n", ":2  "⟩
      (dictReaderRow ["tenant_id "] ["ocid1.tenancy"]) = .ok "" :=
  stripped_key_never_matches_padded_header
    ⟨"tenant_id          ", "tenant_id          ", "varchar2(100) ", "n", ":2  "⟩
    ["tenant_id "] "tenant_id " (by decide) (by decide) (by decide) (by decide)
    ["ocid1.tenancy"]

/-- Shared helper: on a missing source file `handle_table` returns Python
`None` immediately, with no database calls and no printed row count
(source lines 209-211). -/
theorem handle_table_missing_file (failsAt : Nat → Bool) (ut : List String)
    (fs : String → Option CsvFile) (loc : String) (d : TableDescriptor)
    (pkItem : TableItem) (hpk : d.items.find? (fun c => c.pk == "y") = some pkItem)
    (hfs : fs (loc ++ "_" ++ d.csv_file) = none) :
    handle_table failsAt ut fs loc d = ⟨.ok none, [], none⟩ := by
  simp only [handle_table]
  rw [hpk]
  simp only []
  rw [hfs]

/-- C4: for every descriptor, the merge phase executes exactly one upsert
statement — of the spec's form `merge into t a using t_TMP b on (a.pk =
b.pk) when matched then update set <a.col = b.col for every non-key field>
when not matched then insert (<all columns>) values (<b.col for all
columns>)` — and commits immediately after executing it: the trace ends
with `[execute (merge_sql), commit]`, and that execute occurs nowhere
earlier in the trace. -/
theorem merge_upsert_form (failsAt : Nat → Bool) (ut : List String)
    (fs : String → Option CsvFile) (loc : String) (d : TableDescriptor)
    (pkItem : TableItem) (file : CsvFile) (n : Nat) (lops : List DbOp)
    (hpk : d.items.find? (fun c => c.pk == "y") = some pkItem)
    (hfs : fs (loc ++ "_" ++ d.csv_file) = some file)
    (hload : load_phase failsAt (insert_sql d) d.items
      (file.rows.map (dictReaderRow file.fieldnames)) = .ok n lops) :
    (handle_table failsAt ut fs loc d).ops =
      schema_ops ut d pkItem.col ++ lops ++
        [DbOp.execute (merge_sql d pkItem.col), DbOp.commit] ∧
    DbOp.execute (merge_sql d pkItem.col) ∉ schema_ops ut d pkItem.col ++ lops ∧
    merge_sql d pkItem.col =
      upsert_form d.table_name (tmp_table_name d) pkItem.col
        ((d.items.filter (fun x => x.pk != "y")).map (fun x => x.col))
        (d.items.map (fun x => x.col)) := by
  refine ⟨?_, ?_, ?_⟩
  · simp only [handle_table]
    rw [hpk]
    simp only []
    rw [hfs]
    simp only []
    rw [hload]
  · intro hmem
    rcases List.mem_append.mp hmem with h | h
    · exact schema_ops_no_merge ut d d pkItem.col pkItem.col h
    · have hk := load_rows_ops_kinds failsAt (insert_sql d) d.items
        (file.rows.map (dictReaderRow file.fieldnames)) [] 0 [] 0 "before CSV load"
        n lops hload _ h
      rcases hk with h1 | ⟨b, h1⟩ | h1
      · exact List.not_mem_nil _ h1
      · cases h1
      · cases h1
  · simp [merge_sql, upsert_form, merge_sql_columns, insert_def_sql_columns,
      insert_val_sql_columns, List.map_map, Function.comp_def]

/-- C4 witness: a two-field descriptor, one row. -/
theorem merge_upsert_form_witness :
    (handle_table (fun _ => false) []
        (fun p => if p = "L_f.csv" then some ⟨["k", "c"], [["a", "b"]]⟩ else none) "L"
        ⟨"T", "f.csv", [⟨"k", "k", "t", "y", ":1"⟩, ⟨"c", "c", "t", "n", ":2"⟩]⟩).ops =
      schema_ops [] ⟨"T", "f.csv", [⟨"k", "k", "t", "y", ":1"⟩, ⟨"c", "c", "t", "n", ":2"⟩]⟩
          "k" ++
        [DbOp.executemany
            (insert_sql ⟨"T", "f.csv", [⟨"k", "k", "t", "y", ":1"⟩, ⟨"c", "c", "t", "n", ":2"⟩]⟩)
            [["a", "b"]],
          DbOp.commit] ++
        [DbOp.execute
            (merge_sql ⟨"T", "f.csv", [⟨"k", "k", "t", "y", ":1"⟩, ⟨"c", "c", "t", "n", ":2"⟩]⟩
              "k"),
          DbOp.commit] ∧
    DbOp.execute
        (merge_sql ⟨"T", "f.csv", [⟨"k", "k", "t", "y", ":1"⟩, ⟨"c", "c", "t", "n", ":2"⟩]⟩
          "k") ∉
      schema_ops [] ⟨"T", "f.csv", [⟨"k", "k", "t", "y", ":1"⟩, ⟨"c", "c", "t", "n", ":2"⟩]⟩
          "k" ++
        [DbOp.executemany
            (insert_sql ⟨"T", "f.csv", [⟨"k", "k", "t", "y", ":1"⟩, ⟨"c", "c", "t", "n", ":2"⟩]⟩)
            [["a", "b"]],
          DbOp.commit] ∧
    merge_sql ⟨"T", "f.csv", [⟨"k", "k", "t", "y", ":1"⟩, ⟨"c", "c", "t", "n", ":2"⟩]⟩ "k" =
      upsert_form "T"
        (tmp_table_name ⟨"T", "f.csv", [⟨"k", "k", "t", "y", ":1"⟩, ⟨"c", "c", "t", "n", ":2"⟩]⟩)
        "k"
        ((([⟨"k", "k", "t", "y", ":1"⟩, ⟨"c", "c", "t", "n", ":2"⟩] :
            List TableItem).filter (fun x => x.pk != "y")).map (fun x => x.col))
        (([⟨"k", "k", "t", "y", ":1"⟩, ⟨"c", "c", "t", "n", ":2"⟩] :
            List TableItem).map (fun x => x.col)) :=
  merge_upsert_form (fun _ => false) []
    (fun p => if p = "L_f.csv" then some ⟨["k", "c"], [["a", "b"]]⟩ else none) "L"
    ⟨"T", "f.csv", [⟨"k", "k", "t", "y", ":1"⟩, ⟨"c", "c", "t", "n", ":2"⟩]⟩
    ⟨"k", "k", "t", "y", ":1"⟩ ⟨["k", "c"], [["a", "b"]]⟩ 1
    [DbOp.executemany
        (insert_sql ⟨"T", "f.csv", [⟨"k", "k", "t", "y", ":1"⟩, ⟨"c", "c", "t", "n", ":2"⟩]⟩)
        [["a", "b"]],
      DbOp.commit]
    (by decide) (by decide) (by decide)

/-- Shared helper: the primary key the compute descriptor's `next(...)`
lookup finds is `instance_id`. -/
theorem compute_pk_find :
    compute_json.items.find? (fun c => c.pk == "y") =
      some ⟨"instance_id           ", "instance_id           ", "varchar2(1000)", "y", ":3  "⟩ := by
  decide

/-- C7: a descriptor whose source file does not exist raises no error,
loads zero rows, performs no database call at all (in particular neither
the bulk inserts nor the merge), and the driver then proceeds to the next
descriptor: with the compute file absent, `main_process` still reaches
`handle_block_volume`. -/
theorem missing_file_skips_descriptor (failsAt : Nat → Bool) (ut : List String)
    (fs : String → Option CsvFile) (loc : String) (d : TableDescriptor)
    (pkItem : TableItem) (hpk : d.items.find? (fun c => c.pk == "y") = some pkItem)
    (hfs : fs (loc ++ "_" ++ d.csv_file) = none) :
    handle_table failsAt ut fs loc d = ⟨.ok none, [], none⟩ ∧
    (fs (loc ++ "_" ++ compute_json.csv_file) = none →
      (main_process failsAt ut fs loc).ranBlockVolume = true) := by
  refine ⟨handle_table_missing_file failsAt ut fs loc d pkItem hpk hfs, ?_⟩
  intro hcomp
  have hc := handle_table_missing_file failsAt ut fs loc compute_json _ compute_pk_find hcomp
  simp only [main_process, handle_compute, hc]
  cases hr2 : (handle_block_volume failsAt ut fs loc).ret with
  | ok v => simp [hr2]
  | error e => cases e <;> simp [hr2]

/-- C7 witness: an empty file system. -/
theorem missing_file_skips_descriptor_witness :
    handle_table (fun _ => false) [] (fun _ => none) "x" compute_json = ⟨.ok none, [], none⟩ ∧
    (main_process (fun _ => false) [] (fun _ => none) "x").ranBlockVolume = true :=
  ⟨(missing_file_skips_descriptor (fun _ => false) [] (fun _ => none) "x" compute_json
      ⟨"instance_id           ", "instance_id           ", "varchar2(1000)", "y", ":3  "⟩
      compute_pk_find rfl).1,
    (missing_file_skips_descriptor (fun _ => false) [] (fun _ => none) "x" compute_json
      ⟨"instance_id           ", "instance_id           ", "varchar2(1000)", "y", ":3  "⟩
      compute_pk_find rfl).2 rfl⟩

/-- C8 counterexample: `handle_table` never returns a row count.  With a
one-row compute file it prints `1` rows but returns Python `None` (not 1);
with the file missing it returns `None` as well (not 0). -/
theorem load_return_value_cex :
    (handle_table (fun _ => false) []
        (fun p => if p = "run1_compute.csv" then some ⟨["instance_id"], [["ocid1"]]⟩ else none)
        "run1" compute_json).printed_rows = some 1 ∧
    (handle_table (fun _ => false) []
        (fun p => if p = "run1_compute.csv" then some ⟨["instance_id"], [["ocid1"]]⟩ else none)
        "run1" compute_json).ret = .ok none ∧
    (Except.ok none : Except PyErr (Option Nat)) ≠ Except.ok (some (1 : Nat)) ∧
    (handle_table (fun _ => false) [] (fun _ => none) "run1" compute_json).ret = .ok none ∧
    (Except.ok none : Except PyErr (Option Nat)) ≠ Except.ok (some (0 : Nat)) := by
  refine ⟨by decide, by decide, by decide, by decide, by decide⟩

/-- C8 amended: the load operation does not return a row count.  Whenever
`handle_table` returns normally its Python return value is `None` — on the
missing-file path (bare `return`) and on the completed path alike — and
the total row count is only printed: when the loop completes, the printed
count equals the number of data rows of the source CSV. -/
theorem load_returns_none (failsAt : Nat → Bool) (ut : List String)
    (fs : String → Option CsvFile) (loc : String) (d : TableDescriptor) :
    (∀ v, (handle_table failsAt ut fs loc d).ret = .ok v → v = none) ∧
    (∀ file, fs (loc ++ "_" ++ d.csv_file) = some file →
      ∀ n, (handle_table failsAt ut fs loc d).printed_rows = some n →
        n = file.rows.length) := by
  constructor
  · intro v h
    simp only [handle_table] at h
    cases hpk : d.items.find? (fun c => c.pk == "y") with
    | none => rw [hpk] at h; cases h
    | some pkItem =>
        rw [hpk] at h
        simp only [] at h
        cases hfs : fs (loc ++ "_" ++ d.csv_file) with
        | none => rw [hfs] at h; cases h; rfl
        | some file =>
            rw [hfs] at h
            simp only [] at h
            cases hload : load_phase failsAt (insert_sql d) d.items
                (file.rows.map (dictReaderRow file.fieldnames)) with
            | ok n lops => rw [hload] at h; cases h; rfl
            | dbError lops => rw [hload] at h; cases h
            | typeError msg l lops => rw [hload] at h; cases h
  · intro file hfs n h
    simp only [handle_table] at h
    cases hpk : d.items.find? (fun c => c.pk == "y") with
    | none => rw [hpk] at h; cases h
    | some pkItem =>
        rw [hpk] at h
        simp only [] at h
        rw [hfs] at h
        simp only [] at h
        cases hload : load_phase failsAt (insert_sql d) d.items
            (file.rows.map (dictReaderRow file.fieldnames)) with
        | ok m lops =>
            rw [hload] at h
            simp only [] at h
            have hmn : m = n := by injection h
            subst hmn
            have hm := load_rows_num failsAt (insert_sql d) d.items
              (file.rows.map (dictReaderRow file.fieldnames)) [] 0 [] 0 "before CSV load"
              m lops hload
            simpa using hm
        | dbError lops => rw [hload] at h; cases h
        | typeError msg l lops => rw [hload] at h; cases h

/-- C8 amended witness. -/
theorem load_returns_none_witness :
    (none : Option Nat) = none ∧
    (1 : Nat) = (CsvFile.mk ["instance_id"] [["ocid1"]]).rows.length :=
  ⟨(load_returns_none (fun _ => false) []
      (fun p => if p = "w8_compute.csv" then some ⟨["instance_id"], [["ocid1"]]⟩ else none)
      "w8" compute_json).1 none (by decide),
    (load_returns_none (fun _ => false) []
      (fun p => if p = "w8_compute.csv" then some ⟨["instance_id"], [["ocid1"]]⟩ else none)
      "w8" compute_json).2 ⟨["instance_id"], [["ocid1"]]⟩ (by decide) 1 (by decide)⟩

/-- C6 counterexample: a `DatabaseError` raised during the compute
descriptor's bulk insert (failure oracle always true) is turned into
`SystemExit` by `handle_table`; `SystemExit` escapes every `except
Exception` clause, so `main_process` terminates without printing the final
completion message — the failure is not caught at the top-level driver and
the run does not continue to report completion. -/
theorem db_error_kills_run_cex :
    (handle_compute (fun _ => true) []
        (fun p => if p = "run1_compute.csv" then some ⟨["instance_id"], [["ocid1"]]⟩ else none)
        "run1").ret = .error .systemExit ∧
    (main_process (fun _ => true) []
        (fun p => if p = "run1_compute.csv" then some ⟨["instance_id"], [["ocid1"]]⟩ else none)
        "run1").completed_printed = false := by
  refine ⟨by decide, by decide⟩

/-- C6 amended: the completion message is skipped exactly when a handler
raises `SystemExit` (which `handle_table` does on a `DatabaseError`);
every other error raised while processing a descriptor is a generic
`Exception`, which the driver catches and then still prints the completion
message — though without running the remaining descriptor. -/
theorem driver_completion_policy (failsAt : Nat → Bool) (ut : List String)
    (fs : String → Option CsvFile) (loc : String) :
    ((main_process failsAt ut fs loc).completed_printed = false ↔
      ((handle_compute failsAt ut fs loc).ret = .error .systemExit ∨
        ((∃ v, (handle_compute failsAt ut fs loc).ret = .ok v) ∧
          (handle_block_volume failsAt ut fs loc).ret = .error .systemExit))) ∧
    (∀ m, (handle_compute failsAt ut fs loc).ret = .error (.exn m) →
      (main_process failsAt ut fs loc).completed_printed = true ∧
      (main_process failsAt ut fs loc).ranBlockVolume = false) := by
  constructor
  · cases hr1 : (handle_compute failsAt ut fs loc).ret with
    | ok v =>
        cases hr2 : (handle_block_volume failsAt ut fs loc).ret with
        | ok w => simp [main_process, hr1, hr2]
        | error e => cases e <;> simp [main_process, hr1, hr2]
    | error e => cases e <;> simp [main_process, hr1]
  · intro m hm
    simp [main_process, hm]

/-- C6 amended witness: with the always-failing insert oracle the run ends
without the completion message. -/
theorem driver_completion_policy_witness :
    (main_process (fun _ => true) []
        (fun p => if p = "w6_compute.csv" then some ⟨["instance_id"], [["x"]]⟩ else none)
        "w6").completed_printed = false :=
  (driver_completion_policy (fun _ => true) []
      (fun p => if p = "w6_compute.csv" then some ⟨["instance_id"], [["x"]]⟩ else none)
      "w6").1.mpr (Or.inl (by decide))

/-- C10: every non-database exception raised while processing the
block-volumes descriptor is re-raised by `handle_block_volume` with a
message that begins `"\nError at procedure: handle_compute"` (source line
182 names the compute handler), so the diagnostic context does not name
the block-volumes handler. -/
theorem block_volume_error_names_compute (failsAt : Nat → Bool) (ut : List String)
    (fs : String → Option CsvFile) (loc : String) (m : String)
    (h : (handle_table failsAt ut fs loc block_volume_json).ret = .error (.exn m)) :
    (handle_block_volume failsAt ut fs loc).ret =
      .error (.exn ("\nError at procedure: handle_compute - " ++ m)) ∧
    (∃ rest, "\nError at procedure: handle_compute - " ++ m =
      "\nError at procedure: handle_compute" ++ rest) ∧
    "\nError at procedure: handle_compute - " ++ m ≠
      "\nError at procedure: handle_block_volume - " ++ m := by
  refine ⟨?_, ⟨" - " ++ m, ?_⟩, ?_⟩
  · simp only [handle_block_volume, h]
    simp [pyStr]
  · rw [← String.append_assoc]
    exact congrArg (fun s => s ++ m) (by decide)
  · intro he
    have hlen := congrArg String.length he
    rw [String.length_append, String.length_append] at hlen
    have h1 : ("\nError at procedure: handle_compute - ").length = 38 := by decide
    have h2 : ("\nError at procedure: handle_block_volume - ").length = 43 := by decide
    omega

/-- C10 witness: a short row in the block-volumes file raises a generic
`TypeError`-based exception, and the wrapped message names
`handle_compute`. -/
theorem block_volume_error_names_compute_witness :
    (handle_block_volume (fun _ => false) []
        (fun p => if p = "wb_block_volumes.csv" then
          some ⟨["tenant_name", "tenant_id"], [["acme"]]⟩ else none) "wb").ret =
      .error (.exn ("\nError at procedure: handle_compute - " ++
        "\nError at Procedure: handle_table() - before CSV load - NoneType object is not subscriptable")) ∧
    (∃ rest, "\nError at procedure: handle_compute - " ++
        "\nError at Procedure: handle_table() - before CSV load - NoneType object is not subscriptable" =
      "\nError at procedure: handle_compute" ++ rest) ∧
    "\nError at procedure: handle_compute - " ++
        "\nError at Procedure: handle_table() - before CSV load - NoneType object is not subscriptable" ≠
      "\nError at procedure: handle_block_volume - " ++
        "\nError at Procedure: handle_table() - before CSV load - NoneType object is not subscriptable" :=
  block_volume_error_names_compute (fun _ => false) []
    (fun p => if p = "wb_block_volumes.csv" then
      some ⟨["tenant_name", "tenant_id"], [["acme"]]⟩ else none) "wb"
    "\nError at Procedure: handle_table() - before CSV load - NoneType object is not subscriptable"
    (by decide)
